import Mathlib

/-!
Verification development for the document-query-bot repository.

The TypeScript services (`documentService.ts`, `geminiService.ts`,
`ocrService.ts`) are shallowly embedded as pure Lean functions.  Browser and
network effects (FileReader results, pdf.js page texts, Tesseract
recognitions, Gemini API responses, `JSON.parse`, the wall clock, and
`localStorage`) enter as explicit oracle arguments; promise rejection /
thrown exceptions are `Except.error`, resolution / return is `Except.ok`.
JavaScript strings are Lean `String`s; `s.includes`, `trim`, `toLowerCase`,
`split`, `substring` are re-implemented below on the character-list level so
that their algebra is provable.
-/

namespace DocBot

/-! ### String primitives (JavaScript semantics) -/

/-- Whitespace test used for JS `trim` and regex `\s`. -/
def wsChar (c : Char) : Bool := c.isWhitespace

/-- Does `needle` occur contiguously inside `hay`? -/
def containsSub (needle : List Char) : List Char → Bool
  | [] => needle.isEmpty
  | c :: rest => needle.isPrefixOf (c :: rest) || containsSub needle rest

/-- JS `s.includes(sub)`. -/
def jsIncludes (s sub : String) : Bool := containsSub sub.data s.data

/-- `sub` occurs as a contiguous substring of `s` (propositional form). -/
def IsSubstr (sub s : String) : Prop := sub.data <:+: s.data

/-- JS `s.startsWith(p)`. -/
def startsWithS (s p : String) : Bool := p.data.isPrefixOf s.data

/-- JS `s.endsWith(p)`. -/
def endsWithS (s p : String) : Bool := p.data.isSuffixOf s.data

/-- Drop the first `n` characters. -/
def dropS (s : String) (n : Nat) : String := ⟨s.data.drop n⟩

/-- Drop the last `n` characters. -/
def dropRightS (s : String) (n : Nat) : String := ⟨s.data.take (s.data.length - n)⟩

/-- JS `s.substring(0, n)`. -/
def takeS (s : String) (n : Nat) : String := ⟨s.data.take n⟩

/-- JS `s.length` (code points; surrogate pairs are not modelled). -/
def lengthS (s : String) : Nat := s.data.length

/-- Strip leading whitespace. -/
def lstripS (s : String) : String := ⟨s.data.dropWhile wsChar⟩

/-- Strip trailing whitespace. -/
def rstripS (s : String) : String := ⟨(s.data.reverse.dropWhile wsChar).reverse⟩

/-- JS `s.trim()`. -/
def trimS (s : String) : String := rstripS (lstripS s)

/-- JS `s.toLowerCase()`. -/
def toLowerS (s : String) : String := ⟨s.data.map Char.toLower⟩

/-- Split a character list at a separator character. -/
def splitOnChar (sep : Char) : List Char → List (List Char)
  | [] => [[]]
  | c :: rest =>
    let r := splitOnChar sep rest
    if c = sep then [] :: r
    else
      match r with
      | [] => [[c]]
      | h :: t => (c :: h) :: t

/-- JS split of a string on the comma character. -/
def splitComma (s : String) : List String := (splitOnChar ',' s.data).map (fun l => ⟨l⟩)

/-- JS `o || d` for an optional string; undefined and the empty string are falsy. -/
def jsOrElse (o : Option String) (d : String) : String :=
  match o with
  | some s => if s = "" then d else s
  | none => d

/-- Concatenate a list of strings. -/
def joinS : List String → String
  | [] => ""
  | s :: rest => s ++ joinS rest

/-- JS `Array.join(sep)`. -/
def intercalateS (sep : String) : List String → String
  | [] => ""
  | [x] => x
  | x :: xs => x ++ sep ++ intercalateS sep xs

theorem data_append (a b : String) : (a ++ b).data = a.data ++ b.data := rfl

theorem data_mk (l : List Char) : (String.mk l).data = l := rfl

theorem containsSub_iff (needle hay : List Char) :
    containsSub needle hay = true ↔ needle <:+: hay := by
  induction hay with
  | nil =>
    simp [containsSub, List.isEmpty_iff, List.infix_nil]
  | cons c rest ih =>
    simp [containsSub, ih, List.infix_cons_iff, List.isPrefixOf_iff_prefix]

theorem jsIncludes_iff (s sub : String) : jsIncludes s sub = true ↔ IsSubstr sub s :=
  containsSub_iff sub.data s.data

theorem isSubstr_append (a sub b : String) : IsSubstr sub (a ++ sub ++ b) := by
  refine ⟨a.data, b.data, ?_⟩
  simp [data_append]

theorem IsSubstr.trans {a b c : String} (h1 : IsSubstr a b) (h2 : IsSubstr b c) :
    IsSubstr a c := List.IsInfix.trans h1 h2

/-! ### JSON values -/

/-- JSON values as produced by `JSON.parse` and assembled by the services. -/
inductive Json where
  | null
  | bool (b : Bool)
  | num (n : Int)
  | str (s : String)
  | arr (elems : List Json)
  | obj (fields : List (String × Json))

/-- First binding of `key` in an association list of JSON fields. -/
def lookupField : List (String × Json) → String → Option Json
  | [], _ => none
  | (k, v) :: rest, key => if k = key then some v else lookupField rest key

/-- JS property access `j[key]` on a parsed JSON value (objects only). -/
def Json.lookup : Json → String → Option Json
  | .obj fields, key => lookupField fields key
  | _, _ => none

/-! ### documentService.ts -/

/-- The `File` metadata consumed by `DocumentService` (name, MIME type, byte size). -/
structure FileMeta where
  name : String
  type : String
  size : Nat

/-- JS `Math.round(size / 1024)` (division by the power of two is exact in
floating point, so this is exact Nat arithmetic). -/
def jsRoundKB (size : Nat) : Nat := (size + 512) / 1024

/-- A thrown JS error as observed by the catch blocks: `name` and `message`. -/
structure JsError where
  name : String
  msg : String

/-- Outcome of reading a PDF file and extracting its per-page text layer:
the FileReader can fail (promise rejection), pdf.js can throw (caught and
turned into a descriptive message), or every page yields a text string. -/
inductive PdfReadOutcome where
  | readFail (e : String)
  | loadFail (e : JsError)
  | pages (texts : List String)

/-- Header `PDF file: NAME (K KB)\n\n` shared by the PDF failure messages. -/
def pdfSizeHeader (file : FileMeta) : String :=
  "PDF file: " ++ file.name ++ " (" ++ Nat.repr (jsRoundKB file.size) ++ " KB)\n\n"

/-- The per-error-kind note of `extractPdfText` (source lines 125-138). -/
def pdfErrorMessage (file : FileMeta) (e : JsError) : String :=
  pdfSizeHeader file ++
    (if e.name = "PasswordException" then
      "Note: This PDF is password-protected. Please remove the password and try again."
    else if e.name = "InvalidPDFException" then
      "Note: This PDF appears to be corrupted or invalid. Please try with a different PDF file."
    else if jsIncludes e.msg "worker" then
      "Note: PDF processing worker failed to load. Please refresh the page and try again."
    else if jsIncludes e.msg "fetch" then
      "Note: Failed to load PDF processing resources. Please check your internet connection and try again."
    else
      "Note: Failed to extract text from this PDF. Error: " ++
        (if e.msg = "" then "Unknown error occurred" else e.msg))

/-- Message resolved when a PDF has no text layer and OCR also failed
(source line 119). -/
def imageBasedPdfMessage (file : FileMeta) : String :=
  pdfSizeHeader file ++
    "⚠️ This PDF appears to be image-based and OCR processing failed.\n\n💡 Suggestions:\n• Use an OCR tool (like Adobe Acrobat, Google Drive, or online OCR services) to convert the images to text\n• Convert the PDF to a text-based format\n• Take screenshots and use image-to-text tools\n\nI can only analyze text-based content, so I cannot answer questions about this document until it\x27s converted to text."

/-- Page texts, each with a newline appended, concatenated. -/
def textJoin (pages : List String) : String := joinS (pages.map (fun p => p ++ "\n"))

/-- `processPageWithOCR`: a successful Tesseract pass yields the trimmed page
text; any per-page error is absorbed into a bracketed placeholder string. -/
def processPageWithOCR (pageNumber : Nat) (recog : Except String String) : String :=
  match recog with
  | .ok text => trimS text
  | .error _ => "[Error processing page " ++ Nat.repr pageNumber ++ " with OCR]"

/-- OCR page texts concatenated with double newlines, pages numbered from 1. -/
def ocrPagesJoin : Nat → List (Except String String) → String
  | _, [] => ""
  | i, r :: rest => processPageWithOCR i r ++ "\n\n" ++ ocrPagesJoin (i + 1) rest

/-- `extractPdfTextWithOCR`: `ocrLoad` is the outcome of re-reading the file
and loading the PDF for rendering (`.error` = rejection), carrying the
per-page Tesseract outcomes on success. -/
def extractPdfTextWithOCR (fileName : String)
    (ocrLoad : Except String (List (Except String String))) : Except String String :=
  match ocrLoad with
  | .error e => .error e
  | .ok recogs =>
    let fullText := ocrPagesJoin 1 recogs
    if trimS fullText = "" then .error "No text could be extracted with OCR"
    else .ok ("PDF Content from " ++ fileName ++ " (OCR Processed):\n\n" ++ trimS fullText)

/-- `extractPdfText` (source lines 73-149): text-layer extraction with OCR
fallback; pdf.js errors resolve to descriptive messages, FileReader errors
reject. -/
def extractPdfText (file : FileMeta) (pdfRead : PdfReadOutcome)
    (ocrLoad : Except String (List (Except String String))) : Except String String :=
  match pdfRead with
  | .readFail e => .error e
  | .loadFail e => .ok (pdfErrorMessage file e)
  | .pages texts =>
    let fullText := textJoin texts
    if trimS fullText = "" then
      match extractPdfTextWithOCR file.name ocrLoad with
      | .ok ocrText => .ok ocrText
      | .error _ => .ok (imageBasedPdfMessage file)
    else .ok ("PDF Content from " ++ file.name ++ ":\n\n" ++ trimS fullText)

/-- Placeholder returned for a MIME type matching no supported category. -/
def unsupportedMessage (file : FileMeta) : String :=
  "Document: " ++ file.name ++ " (" ++ Nat.repr (jsRoundKB file.size) ++
    " KB) - Content extraction not supported for this file type"

/-- The disjunction of every MIME-substring test of the dispatch chain. -/
def supportedCategory (t : String) : Bool :=
  let fileType := toLowerS t
  jsIncludes fileType "text" || jsIncludes fileType "javascript" ||
    jsIncludes fileType "json" || jsIncludes fileType "pdf" ||
    jsIncludes fileType "image" || jsIncludes fileType "word" ||
    jsIncludes fileType "document" || jsIncludes fileType "excel" ||
    jsIncludes fileType "sheet" || jsIncludes fileType "presentation" ||
    jsIncludes fileType "powerpoint"

/-- The `try` body of `extractTextContent`: dispatch on the lowercased MIME
type.  `readText`, `image`, `word`, `excel`, `ppt` are the outcomes of the
respective extractor promises. -/
def dispatchExtract (file : FileMeta) (readText image word excel ppt : Except String String)
    (pdfRead : PdfReadOutcome)
    (ocrLoad : Except String (List (Except String String))) : Except String String :=
  let fileType := toLowerS file.type
  if jsIncludes fileType "text" || jsIncludes fileType "javascript" ||
      jsIncludes fileType "json" then readText
  else if jsIncludes fileType "pdf" then extractPdfText file pdfRead ocrLoad
  else if jsIncludes fileType "image" then image
  else if jsIncludes fileType "word" || jsIncludes fileType "document" then word
  else if jsIncludes fileType "excel" || jsIncludes fileType "sheet" then excel
  else if jsIncludes fileType "presentation" || jsIncludes fileType "powerpoint" then ppt
  else .ok (unsupportedMessage file)

/-- `DocumentService.extractTextContent` (source lines 17-45): the dispatch
wrapped in `try/catch`; every rejection is absorbed into a string. -/
def extractTextContent (file : FileMeta) (readText image word excel ppt : Except String String)
    (pdfRead : PdfReadOutcome)
    (ocrLoad : Except String (List (Except String String))) : String :=
  match dispatchExtract file readText image word excel ppt pdfRead ocrLoad with
  | .ok content => content
  | .error _ => "Error reading file: " ++ file.name

/-! ### geminiService.ts

The embedding models the current (second) revision of the service.  The
remote model is the oracle `gen : String → List Part → Except String String`
mapping a model name and the submitted content parts to either the response
text or a thrown error message.  `preprocessQuery` (lines 166-266) only
rewrites the question string that is interpolated into the instruction text
and is irrelevant to every claim; the embedding therefore takes the already
preprocessed query as its `query` argument. -/

/-- An uploaded document as seen by `queryDocuments`. -/
structure Doc where
  name : String
  type : String
  content : Option String

/-- One content part of a multimodal Gemini request. -/
inductive Part where
  | text (s : String)
  | inlineData (mimeType : String) (data : String)

/-- The marker searched for in PDF content to detect an image-based PDF
(source line 309; a prefix of `imageBasedPdfMessage`). -/
def imageBasedMarker : String := "⚠️ This PDF appears to be image-based"

/-- The loop body of lines 305-347 for one document: the content parts it
pushes and whether it is added to `nonProcessableDocuments`. -/
def processDoc (d : Doc) : List Part × Bool :=
  match d.content with
  | none => ([], false)
  | some c =>
    let isImageBasedPDF := jsIncludes d.type "pdf" && jsIncludes c imageBasedMarker
    let isProcessable := !isImageBasedPDF && decide (100 < lengthS c)
    if isImageBasedPDF then ([], true)
    else if startsWithS d.type "image/" then
      match (splitComma c).get? 1 with
      | none => ([Part.text ("\n[" ++ d.name ++ " - Image processing failed]\n")], false)
      | some base64Data =>
        if trimS base64Data = "" then
          ([Part.text ("\n[" ++ d.name ++ " - Image processing failed]\n")], false)
        else
          let mimeType := if startsWithS d.type "image/" then d.type else "image/png"
          ([Part.text ("\n[" ++ d.name ++ "]\n"), Part.inlineData mimeType base64Data], false)
    else if isProcessable then
      ([Part.text ("\n[" ++ d.name ++ "]\n" ++ c ++ "\n")], false)
    else ([], true)

/-- The appended note naming the non-processable documents (lines 350-354). -/
def cannotAnalyzeNote (names : List String) : String :=
  "\nNote: Cannot analyze " ++ intercalateS ", " names ++ " - image-based or insufficient text.\n"

/-- The fixed instruction text wrapped around the (preprocessed) question. -/
def promptTemplate (q : String) : String :=
  "Analyze the uploaded documents and answer ONLY based on their content.\n\nRules:\n- Answer ONLY questions about the documents. If asked about general knowledge, say: \"I can only answer questions about the uploaded documents.\"\n- Understand context from filenames and content type (medical, financial, legal, etc.)\n- Use synonyms: \"summary\"=\"overview/key points\", \"details\"=\"specifics\", \"experience\"=\"work history\", \"data\"=\"numbers/figures\"\n- If information isn\x27t found, say: \"I cannot find this information in the provided documents.\"\n- Interpret questions intelligently based on document type\n\nQuestion: " ++ q ++ "\n\nProvide a clear answer based ONLY on the document content. Mention document names when referencing them."

/-- Lines 286-354: the full `contentParts` array as submitted to the model:
instruction text, then the per-document parts, then (if any document was
non-processable) one combined note. -/
def buildContentParts (query : String) (docs : List Doc) : List Part :=
  let docParts := docs.flatMap (fun d => (processDoc d).1)
  let nonProcessable := docs.filter (fun d => (processDoc d).2)
  let noteParts : List Part :=
    if nonProcessable.length > 0 then
      [Part.text (cannotAnalyzeNote (nonProcessable.map (fun d => d.name)))]
    else []
  Part.text (promptTemplate query) :: (docParts ++ noteParts)

/-- Lines 364-372: cited sources are the documents whose name occurs
case-insensitively in the answer, defaulting to every document name. -/
def computeSources (answer : String) (docs : List Doc) : List String :=
  let sources := (docs.filter (fun d => jsIncludes (toLowerS answer) (toLowerS d.name))).map
    (fun d => d.name)
  if sources.length > 0 then sources else docs.map (fun d => d.name)

/-- What a successful `queryDocuments` call produces: the answer, the cited
sources, and the model name left behind as the session default. -/
structure QueryResult where
  answer : String
  sources : List String
  modelName : String

/-- Fallback answer substituted for an empty response (`answer || ...`). -/
def apologyAnswer : String :=
  "I apologize, but I could not generate a response. Please try rephrasing your question."

/-- Assemble the returned object (lines 369-372) from a raw answer. -/
def mkQueryResult (answer : String) (docs : List Doc) (modelName : String) : QueryResult :=
  { answer := if answer = "" then apologyAnswer else answer
    sources := computeSources answer docs
    modelName := modelName }

/-- The fixed fallback list (lines 387-391). -/
def fallbackModels : List String := ["gemini-1.5-flash", "gemini-1.5-pro", "gemini-pro"]

/-- The discovery candidate list of `discoverWorkingModel` (lines 526-531). -/
def modelsToTry : List String :=
  ["gemini-2.0-flash-exp", "gemini-1.5-flash", "gemini-1.5-pro", "gemini-pro"]

/-- The fallback loop of lines 394-433.  The first `String` argument is the
mutable `this.modelName`: a candidate equal to it is skipped, and it is
reassigned to each candidate that is actually attempted, before the attempt.
Returns the final `this.modelName` and the first successful answer, if any. -/
def runFallbacks (gen : String → List Part → Except String String) (parts : List Part) :
    String → List String → String × Option String
  | name, [] => (name, none)
  | name, f :: rest =>
    if f = name then runFallbacks gen parts name rest
    else
      match gen f parts with
      | .ok answer => (f, some answer)
      | .error _ => runFallbacks gen parts f rest

/-- Plain first-success scan used to characterise `runFallbacks`: every
candidate is attempted in order with the same `parts`; the accumulator
tracks the name of the last candidate attempted. -/
def firstSuccess (gen : String → List Part → Except String String) (parts : List Part) :
    String → List String → String × Option String
  | cur, [] => (cur, none)
  | _, m :: rest =>
    match gen m parts with
    | .ok answer => (m, some answer)
    | .error _ => firstSuccess gen parts m rest

/-- `discoverWorkingModel` (lines 520-548): probe each candidate with a
minimal `test` request and return the first that succeeds. -/
def discoverWorkingModel (gen : String → List Part → Except String String) : Option String :=
  modelsToTry.find? (fun m =>
    match gen m [Part.text "test"] with
    | .ok _ => true
    | .error _ => false)

/-- Error message classes of the catch block (lines 381, 476, 478, 483). -/
def is404Class (msg : String) : Bool :=
  jsIncludes msg "404" || jsIncludes msg "not found" || jsIncludes msg "is not found"

def isApiKeyClass (msg : String) : Bool :=
  jsIncludes msg "API_KEY" || jsIncludes msg "401" || jsIncludes msg "403" ||
    jsIncludes msg "permission" || jsIncludes msg "unauthorized"

def isQuotaClass (msg : String) : Bool :=
  jsIncludes msg "QUOTA_EXCEEDED" || jsIncludes msg "quota" || jsIncludes msg "429" ||
    jsIncludes msg "RESOURCE_EXHAUSTED"

def isRateClass (msg : String) : Bool :=
  jsIncludes msg "RATE_LIMIT" || jsIncludes msg "rate limit"

def notInitializedMsg : String :=
  "Gemini service not initialized. Please provide a valid API key."

def noReadableMsg : String :=
  "No readable document content found. Please upload documents with text or image content."

def allModelsFailedMsg (orig : String) : String :=
  "Unable to access any Gemini models. Please verify:\n1. Your API key is valid and has model access\n2. Your API key has not been revoked\n3. Check https://makersuite.google.com/app/apikey for API key status\n4. Try updating @google/generative-ai package: npm install @google/generative-ai@latest\n\nOriginal error: " ++ orig

def invalidKeyMsg : String :=
  "Invalid API key or insufficient permissions. Please:\n1. Verify your API key at https://makersuite.google.com/app/apikey\n2. Ensure the API key is enabled for Generative AI\n3. Check that your API key has not been revoked or expired"

/-- The quota message of both services (geminiService line 482 and
ocrService line 238), parameterised by the already-computed key prefix. -/
def quotaMessage (p : String) : String :=
  "API quota exceeded for key starting with \"" ++ p ++ "...\". Please check your Gemini API usage limits at https://makersuite.google.com/app/apikey. If you created a new API key, please refresh the page or update the API key in settings."

def rateLimitMsg : String := "Rate limit exceeded. Please wait a moment and try again."

def genericQueryMsg (m : String) : String :=
  "Failed to process your query: " ++ m ++ "\n\nIf this persists, please:\n1. Check your API key is valid\n2. Verify you have access to Gemini models\n3. Check https://makersuite.google.com/app/apikey for API key status"

/-- The first 8 characters of the stored localStorage key, or `unknown` when
the key is missing or empty (falsy). -/
def keyPrefix (storedKey : Option String) : String :=
  match storedKey with
  | some s => if s = "" then "unknown" else takeS s 8
  | none => "unknown"

/-- The non-404 arms of the catch block of `queryDocuments`
(lines 476-488), producing the re-thrown message. -/
def classifyQueryError (msg : String) (storedKey : Option String) : String :=
  if isApiKeyClass msg then invalidKeyMsg
  else if isQuotaClass msg then quotaMessage (keyPrefix storedKey)
  else if isRateClass msg then rateLimitMsg
  else genericQueryMsg msg

/-- The mutable service state: whether `initialize` succeeded and the
current default model name. -/
structure GeminiState where
  initialized : Bool
  modelName : String

/-- `GeminiService.queryDocuments` (lines 268-490).  `gen` is the remote
model, `storedKey` the localStorage API key, `query` the preprocessed
question.  Success carries the result (with the adopted session model),
failure the thrown user-facing message. -/
def queryDocuments (gen : String → List Part → Except String String)
    (storedKey : Option String) (st : GeminiState) (query : String) (docs : List Doc) :
    Except String QueryResult :=
  if st.initialized = false then .error notInitializedMsg
  else
    let parts := buildContentParts query docs
    let attempt : Except String String :=
      if parts.length = 1 then .error noReadableMsg
      else gen st.modelName parts
    match attempt with
    | .ok answer => .ok (mkQueryResult answer docs st.modelName)
    | .error errorMessage =>
      if is404Class errorMessage then
        match runFallbacks gen parts st.modelName fallbackModels with
        | (m, some answer) => .ok (mkQueryResult answer docs m)
        | (_, none) =>
          match discoverWorkingModel gen with
          | some w =>
            match gen w parts with
            | .ok answer => .ok (mkQueryResult answer docs w)
            | .error _ => .error (allModelsFailedMsg errorMessage)
          | none => .error (allModelsFailedMsg errorMessage)
      else .error (classifyQueryError errorMessage storedKey)

/-! ### ocrService.ts -/

/-- The `OCRResult` interface (ocrService lines 4-11). -/
structure OCRResult where
  documentName : String
  documentType : String
  extractedData : Json
  rawText : Option String
  confidence : Option Nat
  processingTime : Option Nat

/-- An input to OCR: a `File` object or an image URL string (camera). -/
inductive OCRInput where
  | file (name : String) (type : String)
  | url (address : String)

/-- The trailing-fence replace: strip one trailing fence plus the whitespace
in front of it, if present. -/
def stripTrailFence (t : String) : String :=
  if endsWithS t "```" then rstripS (dropRightS t 3) else t

/-- Lines 196-201: trim the response, then strip a leading ```` ```json ````
or ```` ``` ```` fence (with following whitespace) and a trailing
```` ``` ```` fence (with preceding whitespace). -/
def cleanResponse (responseText : String) : String :=
  let t := trimS responseText
  if startsWithS t "```json" then stripTrailFence (lstripS (dropS t 7))
  else if startsWithS t "```" then stripTrailFence (lstripS (dropS t 3))
  else t

/-- The note stored under `error` when JSON parsing fails (line 211). -/
def parseFailNote : String := "Failed to parse structured JSON, returning raw text"

/-- Lines 195-213: clean the response and parse it with `JSON.parse`
(the oracle `parseJson`); on failure wrap the cleaned text instead. -/
def parseOcrResponse (parseJson : String → Option Json) (responseText : String) : Json :=
  let t := cleanResponse responseText
  match parseJson t with
  | some j => j
  | none => Json.obj [("rawText", Json.str t), ("error", Json.str parseFailNote)]

/-- The fixed OCR instruction prompt (lines 150-171). -/
def ocrPrompt : String :=
  "Analyze this image/document and extract all text and structured data. Return the result as a valid JSON object.\n\nInstructions:\n1. Extract ALL visible text from the image\n2. Identify and structure any data (forms, tables, lists, etc.)\n3. Preserve the hierarchy and relationships in the data\n4. Return ONLY valid JSON, no markdown, no code blocks\n5. Include a \"rawText\" field with all extracted text\n6. Structure other fields based on what you find (e.g., \"fields\", \"tables\", \"sections\", etc.)\n\nExample structure:\n\x7b\n  \"rawText\": \"All extracted text...\",\n  \"fields\": \x7b\n    \"field1\": \"value1\",\n    \"field2\": \"value2\"\n  \x7d,\n  \"tables\": [...],\n  \"sections\": \x7b...\x7d\n\x7d\n\nExtract and return the JSON now:"

/-- The ambient state of the OCR service: the localStorage key and whether
the initialisation dance (lines 106-127) obtained a model. -/
structure OcrEnv where
  storedKey : Option String
  initOk : Bool

/-- The MIME type reported for an input: `file.type` with an `image/png`
fallback for files (fileToBase64, line 69), always `image/png` for camera
captures. -/
def ocrMimeType (input : OCRInput) : String :=
  match input with
  | .url _ => "image/png"
  | .file _ t => if t = "" then "image/png" else t

/-- The default document name: `camera-capture` for URL inputs, the file
name otherwise. -/
def ocrDefaultName (input : OCRInput) : String :=
  match input with
  | .url _ => "camera-capture"
  | .file n _ => n

/-- The catch block of `performOCR` (lines 225-250): classify the error
message into the re-thrown user-facing message. -/
def classifyOcrError (fileName msg : String) (storedKey : Option String) : String :=
  if isQuotaClass msg then quotaMessage (keyPrefix storedKey)
  else if isApiKeyClass msg then
    "Invalid API key or insufficient permissions. Please verify your API key at https://makersuite.google.com/app/apikey"
  else if isRateClass msg then rateLimitMsg
  else "OCR failed for " ++ fileName ++ ": " ++ msg

/-- `OCRService.performOCR` (lines 105-251).  `gen` is the remote model for
this call, `parseJson` is `JSON.parse`, `convert` the outcome of the
base64 conversion of the input, `procTime` the measured elapsed time. -/
def performOCR (gen : List Part → Except String String) (parseJson : String → Option Json)
    (convert : Except String String) (env : OcrEnv) (input : OCRInput)
    (documentName : Option String) (procTime : Nat) : Except String OCRResult :=
  if env.initOk = false then
    .error "OCR service not initialized. Please provide a valid API key."
  else
    let fileName := jsOrElse documentName (ocrDefaultName input)
    let attempt : Except String OCRResult :=
      match convert with
      | .error e => .error e
      | .ok base64Data =>
        let mimeType := ocrMimeType input
        match gen [Part.text ocrPrompt, Part.inlineData mimeType base64Data] with
        | .error e => .error e
        | .ok rawResponse =>
          let t := cleanResponse rawResponse
          let extractedData := parseOcrResponse parseJson rawResponse
          .ok { documentName := fileName
                documentType := mimeType
                extractedData := extractedData
                rawText := some (match extractedData.lookup "rawText" with
                  | some (Json.str s) => s
                  | _ => t)
                confidence := none
                processingTime := some procTime }
    match attempt with
    | .ok r => .ok r
    | .error e => .error (classifyOcrError fileName e env.storedKey)

/-- The error-shaped placeholder entry pushed by `performBatchOCR` when
`performOCR` threw for input `i` (lines 266-272). -/
def batchErrorEntry (names : Option (List String)) (i : Nat) (f : OCRInput)
    (msg : String) : OCRResult :=
  { documentName := jsOrElse (names.bind (fun l => l.get? i))
      ("document-" ++ Nat.repr (i + 1))
    documentType := (match f with | .url _ => "image/png" | .file _ t => t)
    extractedData := Json.obj [("error", Json.str msg)]
    rawText := none
    confidence := none
    processingTime := none }

/-- One iteration of the `performBatchOCR` loop (lines 257-274) at index
`i`: the result of `this.performOCR` (the oracle `ocrRun`, whose ambient
oracles differ per call) or the error-shaped placeholder entry. -/
def batchEntry (ocrRun : OCRInput → Option String → Except String OCRResult)
    (names : Option (List String)) (i : Nat) (f : OCRInput) : OCRResult :=
  let documentName := names.bind (fun l => l.get? i)
  match ocrRun f documentName with
  | .ok r => r
  | .error msg => batchErrorEntry names i f msg

/-- The indexed loop of `performBatchOCR`. -/
def batchGo (ocrRun : OCRInput → Option String → Except String OCRResult)
    (names : Option (List String)) : Nat → List OCRInput → List OCRResult
  | _, [] => []
  | i, f :: rest => batchEntry ocrRun names i f :: batchGo ocrRun names (i + 1) rest

/-- `OCRService.performBatchOCR` (lines 254-277). -/
def performBatchOCR (ocrRun : OCRInput → Option String → Except String OCRResult)
    (files : List OCRInput) (documentNames : Option (List String)) : List OCRResult :=
  batchGo ocrRun documentNames 0 files

/-- The per-document summary inside `combineResults` (lines 284-289). -/
def summarizeResult (r : OCRResult) : Json :=
  Json.obj [("documentName", Json.str r.documentName),
            ("documentType", Json.str r.documentType),
            ("data", r.extractedData),
            ("processingTime", match r.processingTime with
              | some n => Json.num (Int.ofNat n)
              | none => Json.null)]

/-- `OCRService.combineResults` (lines 280-291); `processedAt` is the
ambient `new Date().toISOString()`. -/
def combineResults (results : List OCRResult) (processedAt : String) : Json :=
  Json.obj [("totalDocuments", Json.num (Int.ofNat results.length)),
            ("processedAt", Json.str processedAt),
            ("documents", Json.arr (results.map summarizeResult))]

/-! ### Helper lemmas -/

theorem eqS_of_data {a b : String} (h : a.data = b.data) : a = b := by
  cases a
  cases b
  exact congrArg String.mk h

theorem isSubstr_of_eq_append {s : String} (a sub b : String)
    (h : s.data = a.data ++ sub.data ++ b.data) : IsSubstr sub s :=
  ⟨a.data, b.data, h.symm⟩

theorem trimS_eq_self (s : String) (hh : s.data.dropWhile wsChar = s.data)
    (ht : s.data.reverse.dropWhile wsChar = s.data.reverse) : trimS s = s := by
  unfold trimS lstripS rstripS
  apply eqS_of_data
  simp only [data_mk, hh, ht, List.reverse_reverse]

theorem dropWhile_append_of_stable (l₁ l₂ : List Char)
    (h : l₁.dropWhile wsChar = l₁) (hne : l₁ ≠ []) :
    (l₁ ++ l₂).dropWhile wsChar = l₁ ++ l₂ := by
  rw [List.dropWhile_append, h]
  simp [List.isEmpty_iff, hne]

theorem mem_intercalate_isSubstr (x : String) :
    ∀ names : List String, x ∈ names → IsSubstr x (intercalateS ", " names)
  | [], h => absurd h (List.not_mem_nil x)
  | [y], h => by
    rcases List.mem_singleton.mp h with rfl
    exact ⟨[], [], by simp [intercalateS]⟩
  | y :: z :: rest, h => by
    rcases List.mem_cons.mp h with rfl | h2
    · exact isSubstr_of_eq_append "" x (", " ++ intercalateS ", " (z :: rest))
        (by simp [intercalateS, data_append, List.append_assoc])
    · have ih := mem_intercalate_isSubstr x (z :: rest) h2
      refine ih.trans ⟨(y ++ ", ").data, [], ?_⟩
      simp [intercalateS, data_append, List.append_assoc]

theorem batchGo_length (ocrRun : OCRInput → Option String → Except String OCRResult)
    (names : Option (List String)) :
    ∀ (files : List OCRInput) (i : Nat), (batchGo ocrRun names i files).length = files.length
  | [], _ => rfl
  | _ :: rest, i => by
    simp [batchGo, batchGo_length ocrRun names rest (i + 1)]

theorem batchGo_get? (ocrRun : OCRInput → Option String → Except String OCRResult)
    (names : Option (List String)) :
    ∀ (files : List OCRInput) (i k : Nat),
      (batchGo ocrRun names i files).get? k =
        (files.get? k).map (fun f => batchEntry ocrRun names (i + k) f)
  | [], _, _ => by simp [batchGo]
  | f :: rest, i, 0 => by simp [batchGo]
  | f :: rest, i, k + 1 => by
    have ih := batchGo_get? ocrRun names rest (i + 1) k
    simpa [batchGo, Nat.add_assoc, Nat.add_comm 1 k] using ih

/-! ### Claim theorems -/

/-- Claim C1 (extraction totality): `extractTextContent` always returns a
string (it is a total function into `String`); for a file whose MIME type
matches no supported category the result is the placeholder containing the
file name and its rounded KB size; and any rejection of a dispatched
extractor is absorbed into the `Error reading file` string rather than
propagated. -/
theorem extractTextContent_totality
    (file : FileMeta) (readText image word excel ppt : Except String String)
    (pdfRead : PdfReadOutcome) (ocrLoad : Except String (List (Except String String))) :
    (supportedCategory file.type = false →
      extractTextContent file readText image word excel ppt pdfRead ocrLoad =
        unsupportedMessage file ∧
      IsSubstr file.name
        (extractTextContent file readText image word excel ppt pdfRead ocrLoad) ∧
      IsSubstr (Nat.repr (jsRoundKB file.size))
        (extractTextContent file readText image word excel ppt pdfRead ocrLoad)) ∧
    (∀ e, dispatchExtract file readText image word excel ppt pdfRead ocrLoad = .error e →
      extractTextContent file readText image word excel ppt pdfRead ocrLoad =
        "Error reading file: " ++ file.name) := by
  constructor
  · intro h
    simp only [supportedCategory, Bool.or_eq_false_iff] at h
    obtain ⟨⟨⟨⟨⟨⟨⟨⟨⟨⟨h1, h2⟩, h3⟩, h4⟩, h5⟩, h6⟩, h7⟩, h8⟩, h9⟩, h10⟩, h11⟩ := h
    have hd : extractTextContent file readText image word excel ppt pdfRead ocrLoad =
        unsupportedMessage file := by
      unfold extractTextContent dispatchExtract
      simp [h1, h2, h3, h4, h5, h6, h7, h8, h9, h10, h11]
    refine ⟨hd, ?_, ?_⟩
    · rw [hd]
      exact isSubstr_of_eq_append "Document: " file.name
        (" (" ++ Nat.repr (jsRoundKB file.size) ++
          " KB) - Content extraction not supported for this file type")
        (by simp [unsupportedMessage, data_append, List.append_assoc])
    · rw [hd]
      exact isSubstr_of_eq_append ("Document: " ++ file.name ++ " (")
        (Nat.repr (jsRoundKB file.size))
        " KB) - Content extraction not supported for this file type"
        (by simp [unsupportedMessage, data_append, List.append_assoc])
  · intro e he
    unfold extractTextContent
    rw [he]

/-- Witness for C1: an unsupported `application/zip` file of 3000 bytes gets
the placeholder, and a rejected text read is absorbed into the error string. -/
theorem extractTextContent_totality_witness :
    extractTextContent ⟨"archive.zip", "application/zip", 3000⟩
        (.ok "") (.ok "") (.ok "") (.ok "") (.ok "") (.pages []) (.ok []) =
      unsupportedMessage ⟨"archive.zip", "application/zip", 3000⟩ ∧
    extractTextContent ⟨"notes.txt", "text/plain", 10⟩
        (.error "read aborted") (.ok "") (.ok "") (.ok "") (.ok "") (.pages []) (.ok []) =
      "Error reading file: " ++ "notes.txt" := by
  constructor
  · exact ((extractTextContent_totality ⟨"archive.zip", "application/zip", 3000⟩
      (.ok "") (.ok "") (.ok "") (.ok "") (.ok "") (.pages []) (.ok [])).1 (by decide)).1
  · exact (extractTextContent_totality ⟨"notes.txt", "text/plain", 10⟩
      (.error "read aborted") (.ok "") (.ok "") (.ok "") (.ok "") (.pages []) (.ok [])).2
      "read aborted" rfl

/-- Claim C7 (PDF extraction fallback): when the page-by-page text layer is
whitespace-only, `extractPdfText` falls back to OCR; a non-empty OCR result
is returned labelled `(OCR Processed)`, and an empty or failed OCR pass
resolves (not rejects) to the descriptive image-based message. -/
theorem extractPdfText_fallback (file : FileMeta) (texts : List String)
    (ocrLoad : Except String (List (Except String String)))
    (h : trimS (textJoin texts) = "") :
    (∀ recogs, ocrLoad = .ok recogs →
      (trimS (ocrPagesJoin 1 recogs) ≠ "" →
        extractPdfText file (.pages texts) ocrLoad =
          .ok ("PDF Content from " ++ file.name ++ " (OCR Processed):\n\n" ++
            trimS (ocrPagesJoin 1 recogs))) ∧
      (trimS (ocrPagesJoin 1 recogs) = "" →
        extractPdfText file (.pages texts) ocrLoad = .ok (imageBasedPdfMessage file))) ∧
    (∀ e, ocrLoad = .error e →
      extractPdfText file (.pages texts) ocrLoad = .ok (imageBasedPdfMessage file)) := by
  constructor
  · rintro recogs rfl
    constructor
    · intro hne
      simp [extractPdfText, extractPdfTextWithOCR, h, hne]
    · intro heq
      simp [extractPdfText, extractPdfTextWithOCR, h, heq]
  · rintro e rfl
    simp [extractPdfText, extractPdfTextWithOCR, h]

/-- Witness for C7: a two-page PDF with a whitespace-only text layer and one
OCR-readable page yields the OCR-labelled content. -/
theorem extractPdfText_fallback_witness :
    extractPdfText ⟨"scan.pdf", "application/pdf", 2048⟩ (.pages ["", " "])
        (.ok [.ok " Hello "]) =
      .ok ("PDF Content from " ++ "scan.pdf" ++ " (OCR Processed):\n\n" ++
        trimS (ocrPagesJoin 1 [.ok " Hello "])) ∧
    extractPdfText ⟨"scan.pdf", "application/pdf", 2048⟩ (.pages ["", " "])
        (.error "No text could be extracted with OCR") =
      .ok (imageBasedPdfMessage ⟨"scan.pdf", "application/pdf", 2048⟩) := by
  constructor
  · exact ((extractPdfText_fallback ⟨"scan.pdf", "application/pdf", 2048⟩ ["", " "]
      (.ok [.ok " Hello "]) (by decide)).1 [.ok " Hello "] rfl).1 (by decide)
  · exact (extractPdfText_fallback ⟨"scan.pdf", "application/pdf", 2048⟩ ["", " "]
      (.error "No text could be extracted with OCR") (by decide)).2
      "No text could be extracted with OCR" rfl

/-- Claim C3 (batch result parity): `performBatchOCR` returns exactly one
entry per input, in input order; entry `i` is the successful result of
`performOCR` on input `i`, or the error-shaped placeholder whose
`extractedData` carries the `error` key; and entry `i` depends only on the
behaviour of `performOCR` on input `i`, so a failure on one input cannot
affect any other entry. -/
theorem performBatchOCR_parity (ocrRun : OCRInput → Option String → Except String OCRResult)
    (files : List OCRInput) (names : Option (List String)) :
    (performBatchOCR ocrRun files names).length = files.length ∧
    (∀ i f, files.get? i = some f →
      (∀ r, ocrRun f (names.bind (fun l => l.get? i)) = .ok r →
        (performBatchOCR ocrRun files names).get? i = some r) ∧
      (∀ msg, ocrRun f (names.bind (fun l => l.get? i)) = .error msg →
        (performBatchOCR ocrRun files names).get? i =
          some (batchErrorEntry names i f msg) ∧
        ∃ entry, (performBatchOCR ocrRun files names).get? i = some entry ∧
          entry.extractedData.lookup "error" = some (Json.str msg)) ∧
      (∀ ocrRun2 : OCRInput → Option String → Except String OCRResult,
        ocrRun2 f (names.bind (fun l => l.get? i)) = ocrRun f (names.bind (fun l => l.get? i)) →
        (performBatchOCR ocrRun2 files names).get? i =
          (performBatchOCR ocrRun files names).get? i)) := by
  refine ⟨batchGo_length ocrRun names files 0, ?_⟩
  intro i f hf
  have hg : ∀ g : OCRInput → Option String → Except String OCRResult,
      (performBatchOCR g files names).get? i = some (batchEntry g names i f) := by
    intro g
    rw [performBatchOCR, batchGo_get? g names files 0 i, hf]
    simp
  refine ⟨?_, ?_, ?_⟩
  · intro r hr
    rw [hg ocrRun]
    simp only [batchEntry]
    rw [hr]
  · intro msg hmsg
    have hb : batchEntry ocrRun names i f = batchErrorEntry names i f msg := by
      simp only [batchEntry]
      rw [hmsg]
    refine ⟨(hg ocrRun).trans (congrArg some hb), batchEntry ocrRun names i f, hg ocrRun, ?_⟩
    rw [hb]
    rfl
  · intro ocrRun2 heq
    rw [hg ocrRun2, hg ocrRun]
    simp only [batchEntry]
    rw [heq]

/-- An oracle for the C3 witness: files succeed, camera captures fail. -/
def ocrRunW : OCRInput → Option String → Except String OCRResult := fun f _ =>
  match f with
  | .file n t => .ok ⟨n, t, Json.obj [], none, none, some 5⟩
  | .url _ => .error "OCR failed for camera-capture: boom"

/-- Witness for C3: a two-input batch where the second input fails keeps
both entries, the second being the error placeholder. -/
theorem performBatchOCR_parity_witness :
    (performBatchOCR ocrRunW [.file "a.png" "image/png", .url "blob:cam"]
      (some ["first"])).length = 2 ∧
    (performBatchOCR ocrRunW [.file "a.png" "image/png", .url "blob:cam"]
      (some ["first"])).get? 1 = some
        (batchErrorEntry (some ["first"]) 1 (.url "blob:cam")
          "OCR failed for camera-capture: boom") := by
  constructor
  · exact (performBatchOCR_parity ocrRunW [.file "a.png" "image/png", .url "blob:cam"]
      (some ["first"])).1
  · exact (((performBatchOCR_parity ocrRunW [.file "a.png" "image/png", .url "blob:cam"]
      (some ["first"])).2 1 (.url "blob:cam") rfl).2.1
      "OCR failed for camera-capture: boom" rfl).1

/-- Claim C8 (aggregation is an order-preserving fold): `combineResults`
reports `totalDocuments` equal to the input length and a `documents` array
of the same length whose `i`-th element carries exactly the name, type,
data and processing time of result `i`. -/
theorem combineResults_parity (results : List OCRResult) (processedAt : String) :
    (combineResults results processedAt).lookup "totalDocuments" =
      some (Json.num (Int.ofNat results.length)) ∧
    ∃ ds, (combineResults results processedAt).lookup "documents" = some (Json.arr ds) ∧
      ds.length = results.length ∧
      ∀ i r, results.get? i = some r → ds.get? i = some (Json.obj
        [("documentName", Json.str r.documentName),
         ("documentType", Json.str r.documentType),
         ("data", r.extractedData),
         ("processingTime", match r.processingTime with
           | some n => Json.num (Int.ofNat n)
           | none => Json.null)]) := by
  refine ⟨rfl, results.map summarizeResult, rfl, by simp, ?_⟩
  intro i r hr
  rw [List.get?_map, hr]
  rfl

/-- Witness for C8: a concrete two-result list aggregates 1:1 in order. -/
theorem combineResults_parity_witness :
    (combineResults
        [{ documentName := "a", documentType := "image/png",
           extractedData := Json.obj [("k", Json.str "v")], rawText := some "t",
           confidence := none, processingTime := some 7 },
         { documentName := "b", documentType := "application/pdf",
           extractedData := Json.obj [("error", Json.str "x")], rawText := none,
           confidence := none, processingTime := none }] "2024-01-01T00:00:00Z").lookup
      "totalDocuments" = some (Json.num (Int.ofNat 2)) ∧
    ∃ ds, (combineResults
        [{ documentName := "a", documentType := "image/png",
           extractedData := Json.obj [("k", Json.str "v")], rawText := some "t",
           confidence := none, processingTime := some 7 },
         { documentName := "b", documentType := "application/pdf",
           extractedData := Json.obj [("error", Json.str "x")], rawText := none,
           confidence := none, processingTime := none }] "2024-01-01T00:00:00Z").lookup
      "documents" = some (Json.arr ds) ∧ ds.length = 2 ∧
      ds.get? 1 = some (Json.obj
        [("documentName", Json.str "b"),
         ("documentType", Json.str "application/pdf"),
         ("data", Json.obj [("error", Json.str "x")]),
         ("processingTime", Json.null)]) := by
  obtain ⟨h1, ds, h2, h3, h4⟩ := combineResults_parity
    [{ documentName := "a", documentType := "image/png",
       extractedData := Json.obj [("k", Json.str "v")], rawText := some "t",
       confidence := none, processingTime := some 7 },
     { documentName := "b", documentType := "application/pdf",
       extractedData := Json.obj [("error", Json.str "x")], rawText := none,
       confidence := none, processingTime := none }] "2024-01-01T00:00:00Z"
  exact ⟨h1, ds, h2, h3, h4 1 _ rfl⟩

/-! Fence-stripping lemmas for C4.  Throughout, `inner` is a non-empty
string with no leading and no trailing whitespace. -/

theorem lstrip_fence_tail (inner : String) (h0 : inner.data ≠ [])
    (h1 : inner.data.dropWhile wsChar = inner.data) :
    ("\n".data ++ (inner.data ++ "\n```".data)).dropWhile wsChar =
      inner.data ++ "\n```".data := by
  have e1 : "\n".data.dropWhile wsChar = [] := by decide
  rw [List.dropWhile_append, e1]
  simp only [List.isEmpty_nil, if_true]
  rw [List.dropWhile_append, h1]
  simp [h0]

theorem rstrip_newline (inner : String)
    (h2 : inner.data.reverse.dropWhile wsChar = inner.data.reverse) :
    rstripS ⟨inner.data ++ "\n".data⟩ = inner := by
  apply eqS_of_data
  simp only [rstripS, data_mk, List.reverse_append]
  have e1 : "\n".data.reverse = "\n".data := by decide
  rw [e1]
  have e2 : ("\n".data ++ inner.data.reverse).dropWhile wsChar = inner.data.reverse := by
    rw [List.dropWhile_append]
    have e3 : "\n".data.dropWhile wsChar = [] := by decide
    rw [e3]
    simp [h2]
  rw [e2, List.reverse_reverse]

theorem stripTrailFence_inner (inner : String)
    (h2 : inner.data.reverse.dropWhile wsChar = inner.data.reverse) :
    stripTrailFence ⟨inner.data ++ "\n```".data⟩ = inner := by
  unfold stripTrailFence
  have hend : endsWithS ⟨inner.data ++ "\n```".data⟩ "```" = true := by
    unfold endsWithS
    rw [List.isSuffixOf_iff_suffix]
    refine ⟨inner.data ++ "\n".data, ?_⟩
    rw [data_mk, List.append_assoc, show "\n".data ++ "```".data = "\n```".data by decide]
  rw [if_pos hend]
  have hdr : dropRightS ⟨inner.data ++ "\n```".data⟩ 3 = String.mk (inner.data ++ "\n".data) := by
    apply eqS_of_data
    show (inner.data ++ "\n```".data).take ((inner.data ++ "\n```".data).length - 3) =
      (String.mk (inner.data ++ "\n".data)).data
    rw [data_mk, show "\n```".data = "\n".data ++ "```".data by decide, ← List.append_assoc]
    have hlen : ((inner.data ++ "\n".data) ++ "```".data).length - 3 =
        (inner.data ++ "\n".data).length := by
      simp [List.length_append]
    rw [hlen, List.take_left]
  rw [hdr]
  exact rstrip_newline inner h2

theorem cleanResponse_eq (r : String) :
    cleanResponse r =
      if startsWithS (trimS r) "```json" then stripTrailFence (lstripS (dropS (trimS r) 7))
      else if startsWithS (trimS r) "```" then stripTrailFence (lstripS (dropS (trimS r) 3))
      else trimS r := rfl

theorem parseOcrResponse_eq (parseJson : String → Option Json) (r : String) :
    parseOcrResponse parseJson r =
      match parseJson (cleanResponse r) with
      | some j => j
      | none => Json.obj [("rawText", Json.str (cleanResponse r)),
                          ("error", Json.str parseFailNote)] := rfl

theorem cleanResponse_json_fence (inner : String) (h0 : inner.data ≠ [])
    (h1 : inner.data.dropWhile wsChar = inner.data)
    (h2 : inner.data.reverse.dropWhile wsChar = inner.data.reverse) :
    cleanResponse ("```json\n" ++ inner ++ "\n```") = inner := by
  have hdata : ("```json\n" ++ inner ++ "\n```").data =
      "```json\n".data ++ (inner.data ++ "\n```".data) := by
    simp [data_append, List.append_assoc]
  have htrim : trimS ("```json\n" ++ inner ++ "\n```") = "```json\n" ++ inner ++ "\n```" := by
    apply trimS_eq_self
    · rw [hdata]
      exact dropWhile_append_of_stable _ _ (by decide) (by decide)
    · rw [hdata, List.reverse_append, List.reverse_append, List.append_assoc]
      exact dropWhile_append_of_stable _ _ (by decide) (by decide)
  have hsw : startsWithS ("```json\n" ++ inner ++ "\n```") "```json" = true := by
    unfold startsWithS
    rw [List.isPrefixOf_iff_prefix, hdata,
      show "```json\n".data = "```json".data ++ "\n".data by decide, List.append_assoc]
    exact List.prefix_append _ _
  have hdrop : dropS ("```json\n" ++ inner ++ "\n```") 7 =
      String.mk ("\n".data ++ (inner.data ++ "\n```".data)) := by
    apply eqS_of_data
    simp only [dropS, data_mk]
    rw [hdata, show "```json\n".data = "```json".data ++ "\n".data by decide,
      List.append_assoc, List.drop_left' (by decide)]
  have hls : lstripS (String.mk ("\n".data ++ (inner.data ++ "\n```".data))) =
      String.mk (inner.data ++ "\n```".data) := by
    apply eqS_of_data
    simp only [lstripS, data_mk]
    exact lstrip_fence_tail inner h0 h1
  rw [cleanResponse_eq, htrim, if_pos hsw, hdrop, hls]
  exact stripTrailFence_inner inner h2

theorem cleanResponse_plain_fence (inner : String) (h0 : inner.data ≠ [])
    (h1 : inner.data.dropWhile wsChar = inner.data)
    (h2 : inner.data.reverse.dropWhile wsChar = inner.data.reverse) :
    cleanResponse ("```\n" ++ inner ++ "\n```") = inner := by
  have hdata : ("```\n" ++ inner ++ "\n```").data =
      "```\n".data ++ (inner.data ++ "\n```".data) := by
    simp [data_append, List.append_assoc]
  have htrim : trimS ("```\n" ++ inner ++ "\n```") = "```\n" ++ inner ++ "\n```" := by
    apply trimS_eq_self
    · rw [hdata]
      exact dropWhile_append_of_stable _ _ (by decide) (by decide)
    · rw [hdata, List.reverse_append, List.reverse_append, List.append_assoc]
      exact dropWhile_append_of_stable _ _ (by decide) (by decide)
  have hnotjson : startsWithS ("```\n" ++ inner ++ "\n```") "```json" = false := by
    unfold startsWithS
    have hnp : ¬ ("```json".data <+: ("```\n" ++ inner ++ "\n```").data) := by
      intro hp
      obtain ⟨t, ht⟩ := hp
      have h3 : ("```json".data ++ t).get? 3 = some 'j' := by
        rw [List.get?_append (by decide)]
        decide
      have h4 : ("```\n" ++ inner ++ "\n```").data.get? 3 = some '\n' := by
        rw [hdata, List.get?_append (by decide)]
        decide
      rw [ht] at h3
      rw [h3] at h4
      exact absurd h4 (by decide)
    cases hb : "```json".data.isPrefixOf ("```\n" ++ inner ++ "\n```").data
    · rfl
    · exact absurd (List.isPrefixOf_iff_prefix.mp hb) hnp
  have hsw : startsWithS ("```\n" ++ inner ++ "\n```") "```" = true := by
    unfold startsWithS
    rw [List.isPrefixOf_iff_prefix, hdata,
      show "```\n".data = "```".data ++ "\n".data by decide, List.append_assoc]
    exact List.prefix_append _ _
  have hdrop : dropS ("```\n" ++ inner ++ "\n```") 3 =
      String.mk ("\n".data ++ (inner.data ++ "\n```".data)) := by
    apply eqS_of_data
    simp only [dropS, data_mk]
    rw [hdata, show "```\n".data = "```".data ++ "\n".data by decide,
      List.append_assoc, List.drop_left' (by decide)]
  have hls : lstripS (String.mk ("\n".data ++ (inner.data ++ "\n```".data))) =
      String.mk (inner.data ++ "\n```".data) := by
    apply eqS_of_data
    simp only [lstripS, data_mk]
    exact lstrip_fence_tail inner h0 h1
  rw [cleanResponse_eq, htrim, if_neg (by simp [hnotjson]), if_pos hsw, hdrop, hls]
  exact stripTrailFence_inner inner h2

/-- Claim C4 (JSON robustness of the OCR result parser): a model response
wrapped in a leading ```` ```json ```` or plain ```` ``` ```` fence and a
trailing fence is stripped to the inner text, which is parsed into
`extractedData` when it is valid JSON; and any response whose stripped text
fails to parse yields the fallback object carrying the stripped text under
`rawText` and the failure note under `error`, rather than an exception. -/
theorem parseOcrResponse_robustness (parseJson : String → Option Json) (inner : String)
    (h0 : inner.data ≠ [])
    (h1 : inner.data.dropWhile wsChar = inner.data)
    (h2 : inner.data.reverse.dropWhile wsChar = inner.data.reverse) :
    cleanResponse ("```json\n" ++ inner ++ "\n```") = inner ∧
    cleanResponse ("```\n" ++ inner ++ "\n```") = inner ∧
    (∀ j, parseJson inner = some j →
      parseOcrResponse parseJson ("```json\n" ++ inner ++ "\n```") = j ∧
      parseOcrResponse parseJson ("```\n" ++ inner ++ "\n```") = j) ∧
    (parseJson inner = none →
      parseOcrResponse parseJson ("```json\n" ++ inner ++ "\n```") =
        Json.obj [("rawText", Json.str inner), ("error", Json.str parseFailNote)] ∧
      parseOcrResponse parseJson ("```\n" ++ inner ++ "\n```") =
        Json.obj [("rawText", Json.str inner), ("error", Json.str parseFailNote)]) ∧
    (∀ bad : String, parseJson (cleanResponse bad) = none →
      parseOcrResponse parseJson bad =
        Json.obj [("rawText", Json.str (cleanResponse bad)),
                  ("error", Json.str parseFailNote)]) := by
  have hj := cleanResponse_json_fence inner h0 h1 h2
  have hp := cleanResponse_plain_fence inner h0 h1 h2
  refine ⟨hj, hp, ?_, ?_, ?_⟩
  · intro j hparse
    constructor
    · rw [parseOcrResponse_eq, hj, hparse]
    · rw [parseOcrResponse_eq, hp, hparse]
  · intro hparse
    constructor
    · rw [parseOcrResponse_eq, hj, hparse]
    · rw [parseOcrResponse_eq, hp, hparse]
  · intro bad hparse
    rw [parseOcrResponse_eq, hparse]

/-- A tiny stand-in for `JSON.parse` used only by the C4 witness: it
recognises exactly one object literal. -/
def parseJsonW : String → Option Json := fun s =>
  if s = "\x7b\"a\": 1\x7d" then some (Json.obj [("a", Json.num 1)]) else none

/-- Witness for C4: a fenced object literal parses to the object, and a
non-JSON response degrades to the fallback object. -/
theorem parseOcrResponse_robustness_witness :
    parseOcrResponse parseJsonW ("```json\n" ++ "\x7b\"a\": 1\x7d" ++ "\n```") =
      Json.obj [("a", Json.num 1)] ∧
    parseOcrResponse parseJsonW "not json at all" =
      Json.obj [("rawText", Json.str (cleanResponse "not json at all")),
                ("error", Json.str parseFailNote)] := by
  constructor
  · exact ((parseOcrResponse_robustness parseJsonW "\x7b\"a\": 1\x7d" (by decide) (by decide)
      (by decide)).2.2.1 (Json.obj [("a", Json.num 1)]) rfl).1
  · exact (parseOcrResponse_robustness parseJsonW "\x7b\"a\": 1\x7d" (by decide) (by decide)
      (by decide)).2.2.2.2 "not json at all" rfl

/-- Claim C5 (source attribution fallback): the cited sources are exactly
the names of documents whose name occurs case-insensitively in the answer;
when no name occurs, the full name list is returned, which is non-empty
whenever the document list is. -/
theorem computeSources_fallback (answer : String) (docs : List Doc) :
    ((∀ d, d ∈ docs → ¬ IsSubstr (toLowerS d.name) (toLowerS answer)) →
      computeSources answer docs = docs.map (fun d => d.name)) ∧
    ((∃ d, d ∈ docs ∧ IsSubstr (toLowerS d.name) (toLowerS answer)) →
      computeSources answer docs =
        (docs.filter (fun d => jsIncludes (toLowerS answer) (toLowerS d.name))).map
          (fun d => d.name)) ∧
    (docs ≠ [] → computeSources answer docs ≠ []) := by
  have computeSources_eq : computeSources answer docs =
      if 0 < ((docs.filter (fun d => jsIncludes (toLowerS answer) (toLowerS d.name))).map
          (fun d => d.name)).length then
        (docs.filter (fun d => jsIncludes (toLowerS answer) (toLowerS d.name))).map
          (fun d => d.name)
      else docs.map (fun d => d.name) := rfl
  refine ⟨?_, ?_, ?_⟩
  · intro h
    have hfil : docs.filter (fun d => jsIncludes (toLowerS answer) (toLowerS d.name)) = [] := by
      rw [List.filter_eq_nil_iff]
      intro d hd hb
      exact h d hd ((jsIncludes_iff _ _).mp hb)
    rw [computeSources_eq, hfil]
    simp
  · rintro ⟨d, hd, hsub⟩
    have hmem : d ∈ docs.filter (fun d => jsIncludes (toLowerS answer) (toLowerS d.name)) :=
      List.mem_filter.mpr ⟨hd, (jsIncludes_iff _ _).mpr hsub⟩
    have hlen : 0 < ((docs.filter (fun d => jsIncludes (toLowerS answer) (toLowerS d.name))).map
        (fun d => d.name)).length := by
      rw [List.length_map]
      exact List.length_pos_of_mem hmem
    rw [computeSources_eq, if_pos hlen]
  · intro hdocs
    by_cases hl : 0 < ((docs.filter (fun d => jsIncludes (toLowerS answer) (toLowerS d.name))).map
        (fun d => d.name)).length
    · rw [computeSources_eq, if_pos hl]
      intro hnil
      rw [hnil] at hl
      simp at hl
    · rw [computeSources_eq, if_neg hl]
      intro hmapnil
      exact hdocs (List.map_eq_nil_iff.mp hmapnil)

/-- Witness for C5: with one document named `report.pdf`, an answer
mentioning it cites exactly it, and an unrelated answer falls back to the
full (non-empty) name list. -/
theorem computeSources_fallback_witness :
    computeSources "Nothing relevant here." [(Doc.mk "report.pdf" "application/pdf" (some "x"))] =
      [(Doc.mk "report.pdf" "application/pdf" (some "x"))].map (fun d => d.name) ∧
    computeSources "See Report.PDF for details." [(Doc.mk "report.pdf" "application/pdf" (some "x"))] =
      ([(Doc.mk "report.pdf" "application/pdf" (some "x"))].filter
        (fun d => jsIncludes (toLowerS "See Report.PDF for details.") (toLowerS d.name))).map
        (fun d => d.name) ∧
    computeSources "Nothing relevant here." [(Doc.mk "report.pdf" "application/pdf" (some "x"))] ≠ [] := by
  refine ⟨?_, ?_, ?_⟩
  · apply (computeSources_fallback "Nothing relevant here."
      [(Doc.mk "report.pdf" "application/pdf" (some "x"))]).1
    intro d hd
    rcases List.mem_singleton.mp hd with rfl
    intro hsub
    have : jsIncludes (toLowerS "Nothing relevant here.")
        (toLowerS (Doc.name (Doc.mk "report.pdf" "application/pdf" (some "x")))) = true :=
      (jsIncludes_iff _ _).mpr hsub
    exact absurd this (by decide)
  · apply (computeSources_fallback "See Report.PDF for details."
      [(Doc.mk "report.pdf" "application/pdf" (some "x"))]).2.1
    refine ⟨(Doc.mk "report.pdf" "application/pdf" (some "x")), List.mem_singleton.mpr rfl, ?_⟩
    exact (jsIncludes_iff _ _).mp (by decide)
  · exact (computeSources_fallback "Nothing relevant here."
      [(Doc.mk "report.pdf" "application/pdf" (some "x"))]).2.2 (List.cons_ne_nil _ _)

theorem queryDocuments_eq (gen : String → List Part → Except String String)
    (storedKey : Option String) (st : GeminiState) (query : String) (docs : List Doc) :
    queryDocuments gen storedKey st query docs =
      if st.initialized = false then .error notInitializedMsg
      else
        match (if (buildContentParts query docs).length = 1 then
            (Except.error noReadableMsg : Except String String)
          else gen st.modelName (buildContentParts query docs)) with
        | .ok answer => .ok (mkQueryResult answer docs st.modelName)
        | .error errorMessage =>
          if is404Class errorMessage then
            match runFallbacks gen (buildContentParts query docs) st.modelName fallbackModels with
            | (m, some answer) => .ok (mkQueryResult answer docs m)
            | (_, none) =>
              match discoverWorkingModel gen with
              | some w =>
                match gen w (buildContentParts query docs) with
                | .ok answer => .ok (mkQueryResult answer docs w)
                | .error _ => .error (allModelsFailedMsg errorMessage)
              | none => .error (allModelsFailedMsg errorMessage)
          else .error (classifyQueryError errorMessage storedKey) := rfl

/-- Claim C6 (no-readable-content guard): when the assembled content parts
consist of the instruction text alone, `queryDocuments` throws the
no-readable-content error (wrapped by the generic catch arm, which keeps the
text verbatim inside the surfaced message) and the outcome does not depend
on the model oracle at all — the model is never consulted. -/
theorem queryDocuments_no_readable_content
    (gen gen2 : String → List Part → Except String String)
    (storedKey : Option String) (st : GeminiState) (query : String) (docs : List Doc)
    (hinit : st.initialized = true)
    (hlen : (buildContentParts query docs).length = 1) :
    queryDocuments gen storedKey st query docs = .error (genericQueryMsg noReadableMsg) ∧
    IsSubstr noReadableMsg (genericQueryMsg noReadableMsg) ∧
    queryDocuments gen storedKey st query docs = queryDocuments gen2 storedKey st query docs := by
  have key : ∀ g : String → List Part → Except String String,
      queryDocuments g storedKey st query docs = .error (genericQueryMsg noReadableMsg) := by
    intro g
    have h404 : is404Class noReadableMsg = false := by decide
    have hclass : classifyQueryError noReadableMsg storedKey = genericQueryMsg noReadableMsg := by
      unfold classifyQueryError
      rw [if_neg (by decide), if_neg (by decide), if_neg (by decide)]
    rw [queryDocuments_eq]
    simp [hinit, hlen, h404, hclass]
  refine ⟨key gen, ?_, (key gen).trans (key gen2).symm⟩
  exact isSubstr_of_eq_append "Failed to process your query: " noReadableMsg
    "\n\nIf this persists, please:\n1. Check your API key is valid\n2. Verify you have access to Gemini models\n3. Check https://makersuite.google.com/app/apikey for API key status"
    (by simp [genericQueryMsg, data_append, List.append_assoc])

/-- Witness for C6: with no documents at all, the prompt would carry only
the instruction text, and the call fails with the wrapped
no-readable-content message for any model oracle. -/
theorem queryDocuments_no_readable_content_witness :
    queryDocuments (fun _ _ => .ok "unused") (some "key")
        ⟨true, "gemini-2.0-flash-exp"⟩ "q" [] =
      .error (genericQueryMsg noReadableMsg) ∧
    queryDocuments (fun _ _ => .ok "unused") (some "key")
        ⟨true, "gemini-2.0-flash-exp"⟩ "q" [] =
      queryDocuments (fun _ _ => .error "an oracle that always throws") (some "key")
        ⟨true, "gemini-2.0-flash-exp"⟩ "q" [] := by
  have h := queryDocuments_no_readable_content (fun _ _ => .ok "unused")
    (fun _ _ => .error "an oracle that always throws") (some "key")
    ⟨true, "gemini-2.0-flash-exp"⟩ "q" [] rfl rfl
  exact ⟨h.1, h.2.2⟩

/-- Claim C10 (implicit minimum-length exclusion): documents with content
are partitioned by the prompt builder: a non-image document whose content
has length at most 100, and any PDF document carrying the image-based
marker, contribute no parts and are marked non-processable; a non-image,
non-marker document longer than 100 characters contributes its labelled
text block; an image document with a non-empty base64 payload contributes
its label and inline data; and the non-processable names are listed in the
single appended cannot-analyze note. -/
theorem processDoc_min_length_exclusion :
    (∀ d c, d.content = some c → startsWithS d.type "image/" = false → lengthS c ≤ 100 →
      processDoc d = ([], true)) ∧
    (∀ d c, d.content = some c → jsIncludes d.type "pdf" = true →
      jsIncludes c imageBasedMarker = true → processDoc d = ([], true)) ∧
    (∀ d c, d.content = some c → startsWithS d.type "image/" = false →
      (jsIncludes d.type "pdf" && jsIncludes c imageBasedMarker) = false → 100 < lengthS c →
      processDoc d = ([Part.text ("\n[" ++ d.name ++ "]\n" ++ c ++ "\n")], false)) ∧
    (∀ d c b, d.content = some c → startsWithS d.type "image/" = true →
      (jsIncludes d.type "pdf" && jsIncludes c imageBasedMarker) = false →
      (splitComma c).get? 1 = some b → trimS b ≠ "" →
      processDoc d = ([Part.text ("\n[" ++ d.name ++ "]\n"), Part.inlineData d.type b], false)) ∧
    (∀ query docs, docs.filter (fun d => (processDoc d).2) ≠ [] →
      buildContentParts query docs =
        Part.text (promptTemplate query) ::
          (docs.flatMap (fun d => (processDoc d).1) ++
            [Part.text (cannotAnalyzeNote
              ((docs.filter (fun d => (processDoc d).2)).map (fun d => d.name)))]) ∧
      ∀ d, d ∈ docs.filter (fun d2 => (processDoc d2).2) →
        IsSubstr d.name (cannotAnalyzeNote
          ((docs.filter (fun d2 => (processDoc d2).2)).map (fun d2 => d2.name)))) := by
  refine ⟨?_, ?_, ?_, ?_, ?_⟩
  · intro d c hc himg hlen
    by_cases hpdf : (jsIncludes d.type "pdf" && jsIncludes c imageBasedMarker) = true
    · simp [processDoc, hc, hpdf]
    · have hnp : lengthS c ≤ 100 → ¬ (100 < lengthS c) := fun h1 h2 => absurd h1 (by omega)
      simp [processDoc, hc, hpdf, himg, hnp hlen]
  · intro d c hc hpdf hmark
    simp [processDoc, hc, hpdf, hmark]
  · intro d c hc himg hpdf hlen
    simp [processDoc, hc, hpdf, himg, hlen]
  · intro d c b hc himg hpdf hb htrim
    have hb2 : (splitComma c)[1]? = some b := by
      rw [← List.get?_eq_getElem?]
      exact hb
    simp [processDoc, hc, hpdf, himg, hb2, htrim]
  · intro query docs hne
    constructor
    · have hpos : 0 < (docs.filter (fun d => (processDoc d).2)).length :=
        List.length_pos.mpr hne
      simp only [buildContentParts]
      rw [if_pos hpos]
    · intro d hd
      have hmem : d.name ∈ (docs.filter (fun d2 => (processDoc d2).2)).map
          (fun d2 => d2.name) := List.mem_map_of_mem _ hd
      have hsub := mem_intercalate_isSubstr d.name _ hmem
      refine hsub.trans ?_
      apply isSubstr_of_eq_append "\nNote: Cannot analyze " _
        " - image-based or insufficient text.\n"
      simp [cannotAnalyzeNote, data_append, List.append_assoc]

/-- Witness for C10: a 4-character text document is excluded and listed in
the note; a data-URL image contributes its inline part. -/
theorem processDoc_min_length_exclusion_witness :
    processDoc (Doc.mk "short.txt" "text/plain" (some "tiny")) = ([], true) ∧
    processDoc (Doc.mk "img.png" "image/png" (some "data:image/png;base64,AAA")) =
      ([Part.text ("\n[" ++ "img.png" ++ "]\n"),
        Part.inlineData "image/png" "AAA"], false) ∧
    buildContentParts "q" [Doc.mk "short.txt" "text/plain" (some "tiny")] =
      Part.text (promptTemplate "q") ::
        ([Doc.mk "short.txt" "text/plain" (some "tiny")].flatMap
            (fun d => (processDoc d).1) ++
          [Part.text (cannotAnalyzeNote
            (([Doc.mk "short.txt" "text/plain" (some "tiny")].filter
              (fun d => (processDoc d).2)).map (fun d => d.name)))]) := by
  refine ⟨?_, ?_, ?_⟩
  · exact (processDoc_min_length_exclusion).1 (Doc.mk "short.txt" "text/plain" (some "tiny"))
      "tiny" rfl (by decide) (by decide)
  · exact (processDoc_min_length_exclusion).2.2.2.1
      (Doc.mk "img.png" "image/png" (some "data:image/png;base64,AAA"))
      "data:image/png;base64,AAA" "AAA" rfl (by decide) (by decide) (by decide) (by decide)
  · exact ((processDoc_min_length_exclusion).2.2.2.2 "q"
      [Doc.mk "short.txt" "text/plain" (some "tiny")] (List.cons_ne_nil _ _)).1

/-- First-success characterisation used by the amended C2 theorem. -/
theorem firstSuccess_spec (gen : String → List Part → Except String String)
    (parts : List Part) :
    ∀ (ms : List String) (cur m a : String),
      firstSuccess gen parts cur ms = (m, some a) →
      gen m parts = .ok a ∧ ∃ pre post, ms = pre ++ m :: post ∧
        ∀ x, x ∈ pre → ∃ e, gen x parts = .error e
  | [], cur, m, a => by
    intro h
    simp [firstSuccess] at h
  | f :: rest, cur, m, a => by
    intro h
    rcases hg : gen f parts with e | a2
    · simp only [firstSuccess, hg] at h
      obtain ⟨h1, pre, post, heq, hpre⟩ := firstSuccess_spec gen parts rest f m a h
      refine ⟨h1, f :: pre, post, by rw [heq]; rfl, ?_⟩
      intro x hx
      rcases List.mem_cons.mp hx with rfl | hx2
      · exact ⟨e, hg⟩
      · exact hpre x hx2
    · simp only [firstSuccess, hg, Prod.mk.injEq, Option.some.injEq] at h
      obtain ⟨rfl, rfl⟩ := h
      exact ⟨hg, [], rest, rfl, by intro x hx; simp at hx⟩

/-- Counterexample to C2 as stated: with the session current model name
`gemini-1.5-pro` and a first fallback that fails, the loop re-submits to
`gemini-1.5-pro` — the name equal to the current model name — and adopts it,
instead of skipping it. -/
theorem runFallbacks_counterexample :
    runFallbacks
        (fun m _ => if m = "gemini-1.5-pro" then .ok "recovered answer"
          else .error "404. The model is not found")
        [] "gemini-1.5-pro" fallbackModels =
      ("gemini-1.5-pro", some "recovered answer") := rfl

/-- Claim C2, amended (model fallback order): on a 404-class failure the
fallback candidates are attempted in the fixed declared order with the
unchanged content parts; a candidate is skipped only when it equals the
`modelName` current at that moment — which is reassigned to each attempted
candidate — so only a leading candidate equal to the entry model name is
ever skipped, and the loop behaves as a plain first-success scan over the
remaining candidates; the first success is adopted as the session default
and its answer returned by `queryDocuments`. -/
theorem runFallbacks_order_amended :
    (∀ gen parts name, runFallbacks gen parts name fallbackModels =
      firstSuccess gen parts name
        (if name = "gemini-1.5-flash" then ["gemini-1.5-pro", "gemini-pro"]
         else fallbackModels)) ∧
    (∀ gen parts (ms : List String) (cur m a : String),
      firstSuccess gen parts cur ms = (m, some a) →
      gen m parts = .ok a ∧ ∃ pre post, ms = pre ++ m :: post ∧
        ∀ x, x ∈ pre → ∃ e, gen x parts = .error e) ∧
    (∀ gen storedKey st query docs e m a, st.initialized = true →
      (buildContentParts query docs).length ≠ 1 →
      gen st.modelName (buildContentParts query docs) = .error e →
      is404Class e = true →
      runFallbacks gen (buildContentParts query docs) st.modelName fallbackModels =
        (m, some a) →
      queryDocuments gen storedKey st query docs = .ok (mkQueryResult a docs m)) := by
  refine ⟨?_, ?_, ?_⟩
  · intro gen parts name
    have hd21 : ¬ ("gemini-1.5-pro" = "gemini-1.5-flash") := by decide
    have hd32 : ¬ ("gemini-pro" = "gemini-1.5-pro") := by decide
    by_cases h : name = "gemini-1.5-flash"
    · subst h
      rcases hg2 : gen "gemini-1.5-pro" parts with e2 | a2 <;>
        rcases hg3 : gen "gemini-pro" parts with e3 | a3 <;>
          simp [fallbackModels, runFallbacks, firstSuccess, hg2, hg3, hd21, hd32]
    · have hns : ¬ ("gemini-1.5-flash" = name) := fun hh => h hh.symm
      rcases hg1 : gen "gemini-1.5-flash" parts with e1 | a1 <;>
        rcases hg2 : gen "gemini-1.5-pro" parts with e2 | a2 <;>
          rcases hg3 : gen "gemini-pro" parts with e3 | a3 <;>
            simp [fallbackModels, runFallbacks, firstSuccess, hg1, hg2, hg3, h, hns,
              hd21, hd32]
  · intro gen parts ms cur m a h
    exact firstSuccess_spec gen parts ms cur m a h
  · intro gen storedKey st query docs e m a hinit hlen hgen h404 hfb
    rw [queryDocuments_eq]
    simp [hinit, hlen, hgen, h404, hfb]

/-- Witness for the amended C2: the default model fails with a 404, the
first fallback succeeds, is adopted as session default, and its answer is
returned. -/
theorem runFallbacks_order_amended_witness :
    queryDocuments
        (fun m _ => if m = "gemini-1.5-flash" then .ok "fallback answer"
          else .error "404 not found")
        (some "key") ⟨true, "gemini-2.0-flash-exp"⟩ "q"
        [Doc.mk "doc.txt" "text/plain" (some (String.mk (List.replicate 101 'a')))] =
      .ok (mkQueryResult "fallback answer"
        [Doc.mk "doc.txt" "text/plain" (some (String.mk (List.replicate 101 'a')))]
        "gemini-1.5-flash") := by
  exact runFallbacks_order_amended.2.2
    (fun m _ => if m = "gemini-1.5-flash" then .ok "fallback answer"
      else .error "404 not found")
    (some "key") ⟨true, "gemini-2.0-flash-exp"⟩ "q"
    [Doc.mk "doc.txt" "text/plain" (some (String.mk (List.replicate 101 'a')))]
    "404 not found" "gemini-1.5-flash" "fallback answer"
    rfl (by decide) rfl (by decide) rfl

theorem takeS_eq_empty {k : String} (h : takeS k 8 = "") : k = "" := by
  apply eqS_of_data
  have hd : k.data.take 8 = [] := congrArg String.data h
  rcases List.take_eq_nil_iff.mp hd with h8 | hnil
  · exact absurd h8 (by omega)
  · exact hnil

/-- Counterexample to C9 as stated: the quota message is the fixed template
around the 8-character key prefix, and the template text itself contains
`makersuite.google.com`; for the stored key `makersuite.google.com` (21
characters) the full key therefore does appear in the thrown message. -/
theorem quotaMessage_counterexample :
    8 < lengthS "makersuite.google.com" ∧
    IsSubstr "makersuite.google.com"
      (classifyOcrError "photo.png" "quota exceeded" (some "makersuite.google.com")) ∧
    IsSubstr "makersuite.google.com"
      (classifyQueryError "quota exceeded" (some "makersuite.google.com")) := by
  exact ⟨by decide, (jsIncludes_iff _ _).mp (by decide), (jsIncludes_iff _ _).mp (by decide)⟩

/-- Claim C9, amended (quota-error key masking): a quota-classified error in
either service throws the fixed quota template with the first 8 characters
of the stored key substituted, followed by an ellipsis; the message depends
on the key only through those first 8 characters, so nothing beyond the
prefix leaks — although a key that coincides with text of the fixed
template can still appear in the message verbatim. -/
theorem quota_key_masking_amended :
    (∀ fileName msg key, isQuotaClass msg = true →
      classifyOcrError fileName msg (some key) = quotaMessage (keyPrefix (some key))) ∧
    (∀ msg key, isApiKeyClass msg = false → isQuotaClass msg = true →
      classifyQueryError msg (some key) = quotaMessage (keyPrefix (some key))) ∧
    (∀ key, IsSubstr (takeS key 8 ++ "...") (quotaMessage (keyPrefix (some key)))) ∧
    (∀ fileName msg k1 k2, takeS k1 8 = takeS k2 8 →
      classifyOcrError fileName msg (some k1) = classifyOcrError fileName msg (some k2) ∧
      classifyQueryError msg (some k1) = classifyQueryError msg (some k2)) := by
  refine ⟨?_, ?_, ?_, ?_⟩
  · intro fileName msg key hq
    unfold classifyOcrError
    rw [if_pos hq]
  · intro msg key hak hq
    unfold classifyQueryError
    rw [if_neg (by simp [hak]), if_pos hq]
  · intro key
    by_cases hk : key = ""
    · subst hk
      exact (jsIncludes_iff _ _).mp (by decide)
    · have hkp : keyPrefix (some key) = takeS key 8 := by
        simp [keyPrefix, hk]
      rw [hkp]
      apply isSubstr_of_eq_append "API quota exceeded for key starting with \"" _
        "\". Please check your Gemini API usage limits at https://makersuite.google.com/app/apikey. If you created a new API key, please refresh the page or update the API key in settings."
      simp [quotaMessage, data_append, List.append_assoc]
  · intro fileName msg k1 k2 h
    have hpk : keyPrefix (some k1) = keyPrefix (some k2) := by
      by_cases h1 : k1 = ""
      · subst h1
        have h2 : k2 = "" := takeS_eq_empty h.symm
        subst h2
        rfl
      · by_cases h2 : k2 = ""
        · subst h2
          exact absurd (takeS_eq_empty h) h1
        · simp [keyPrefix, h1, h2, h]
    constructor
    · unfold classifyOcrError
      rw [hpk]
    · unfold classifyQueryError
      rw [hpk]

/-- Witness for the amended C9: a 429 error with an 18-character stored key
produces the quota message carrying the 8-character prefix plus ellipsis. -/
theorem quota_key_masking_amended_witness :
    classifyOcrError "f.png" "429 RESOURCE_EXHAUSTED" (some "AIzaSyDemoKey12345") =
      quotaMessage (keyPrefix (some "AIzaSyDemoKey12345")) ∧
    IsSubstr (takeS "AIzaSyDemoKey12345" 8 ++ "...")
      (quotaMessage (keyPrefix (some "AIzaSyDemoKey12345"))) ∧
    classifyQueryError "429 RESOURCE_EXHAUSTED" (some "AIzaSyDemoKey12345") =
      quotaMessage (keyPrefix (some "AIzaSyDemoKey12345")) := by
  refine ⟨?_, ?_, ?_⟩
  · exact quota_key_masking_amended.1 "f.png" "429 RESOURCE_EXHAUSTED"
      "AIzaSyDemoKey12345" (by decide)
  · exact quota_key_masking_amended.2.2.1 "AIzaSyDemoKey12345"
  · exact quota_key_masking_amended.2.1 "429 RESOURCE_EXHAUSTED"
      "AIzaSyDemoKey12345" (by decide) (by decide)

end DocBot
